import Mathlib

/-!
Shallow embedding of `src/streamlit_app.py` (SHOWROOM sales / KPI scrape-to-CSV
pipeline) and proofs of the frozen specification claims about it.

Modelling conventions:
* Python strings are Lean `String`s; the handful of Python string methods the
  source uses (`strip`, `replace` with one-character patterns, `isnumeric`,
  `split`) are re-implemented over `List Char` so that every definition is
  executable and kernel-reducible.
* An HTTP response is abstracted as a record of the facts the code inspects:
  whether `raise_for_status` passed, whether the login-page marker substrings
  occur in the body, the parsed `table-type-02` rows (cell texts), and for the
  room-sales page the result of the total-amount regex search.
* `pandas` data frames are Lean lists; `DataFrame.to_csv` output is modelled as
  the list of rows (and a rendering function for the comma-separated text).
-/

namespace SRud

/-- Python `str.strip()` on a character list: drop leading and trailing
whitespace (the source only ever strips ordinary ASCII whitespace). -/
def stripChars (l : List Char) : List Char :=
  ((l.dropWhile Char.isWhitespace).reverse.dropWhile Char.isWhitespace).reverse

/-- Python `str.strip()` lifted to `String`. -/
def pyStrip (s : String) : String :=
  String.mk (stripChars s.data)

/-- Python `s.replace(c, '')` for a one-character pattern `c` (the source uses
this to strip thousands separators `,` and percent signs `%`). -/
def pyRemoveChar (c : Char) (s : String) : String :=
  String.mk (s.data.filter (fun ch => ch ≠ c))

/-- Python `s.replace(',', '')`: strip thousands separators. -/
def pyRemoveCommas (s : String) : String := pyRemoveChar ',' s

/-- Python `s.replace('-', '/')` as used on the matched KPI start datetime. -/
def pyDashToSlash (s : String) : String :=
  String.mk (s.data.map (fun ch => if ch = '-' then '/' else ch))

/-- Python `str.isnumeric()` restricted to the ASCII strings this pipeline
handles: true iff the string is non-empty and every character is a decimal
digit.  (Python additionally accepts non-ASCII numeric characters; those never
survive the source's comma-stripping of ASCII report cells and are outside the
data model.) -/
def pyIsNumeric (s : String) : Bool :=
  !s.data.isEmpty && s.data.all Char.isDigit

/-- Zero-padded two-digit rendering, as `strftime` `%m`/`%d`/`%H`/`%M`. -/
def pad2 (n : Nat) : String :=
  if n < 10 then "0" ++ toString n else toString n

/-- A wall-clock reading of `datetime.now(JST)` truncated to the fields the
source formats (`%Y/%m/%d %H:%M`). -/
structure JstTime where
  year : Nat
  month : Nat
  day : Nat
  hour : Nat
  minute : Nat
deriving DecidableEq, Repr

/-- The source's `now_jst.strftime('%Y/%m/%d %H:%M')`. -/
def formatJstMinute (t : JstTime) : String :=
  toString t.year ++ "/" ++ pad2 t.month ++ "/" ++ pad2 t.day ++ " " ++
    pad2 t.hour ++ ":" ++ pad2 t.minute

/-- Days from the Unix epoch (1970-01-01) to the civil date `y-m-d`
(proleptic Gregorian, `y ≥ 1970`), by the standard era/year-of-era civil
calendar computation. -/
def daysFromCivil (y m d : Nat) : Nat :=
  let yAdj := if m ≤ 2 then y - 1 else y
  let era := yAdj / 400
  let yoe := yAdj - era * 400
  let mp := if 2 < m then m - 3 else m + 9
  let doy := (153 * mp + 2) / 5 + d - 1
  let doe := yoe * 365 + yoe / 4 - yoe / 100 + doy
  era * 146097 + doe - 719468

/-- Embedding of `JST.localize(datetime(y, m, 1)).timestamp()` for the months
this tool addresses (all at or after 2023-10): the `Asia/Tokyo` zone has had
the fixed offset UTC+9 with no daylight saving throughout, so the epoch second
of `y-m-01T00:00:00+09:00` is the UTC midnight epoch second minus 9 hours. -/
def jstTimestamp (y m : Nat) : Nat :=
  daysFromCivil y m 1 * 86400 - 9 * 3600

/-- Modelled from the spec's words (for the refinement check of C2): the Unix
epoch second of `Y-M-01T00:00:00` interpreted as wall-clock midnight in the
fixed zone UTC+9. -/
def unixEpochOfJstMidnight (y m : Nat) : Nat :=
  daysFromCivil y m 1 * 86400 - 32400

/-- Linear month index used to mirror the source's descending month loop. -/
def monthIdx (y m : Nat) : Nat := y * 12 + (m - 1)

/-- Year component of a linear month index. -/
def idxYear (i : Nat) : Nat := i / 12

/-- Month component (1..12) of a linear month index. -/
def idxMonth (i : Nat) : Nat := i % 12 + 1

/-- Embedding of `get_sales_months`: starting from the current month and
walking backwards month by month until the 2023-10 floor, emit each month
together with its `JST`-midnight Unix timestamp.  The `'YYYY年MM月分'` label is
represented by the `(year, month)` pair. -/
def get_sales_months (todayY todayM : Nat) : List (Nat × Nat × Nat) :=
  let cur := monthIdx todayY todayM
  let floor := monthIdx 2023 10
  (List.range (cur + 1 - floor)).map (fun i =>
    let idx := cur - i
    (idxYear idx, idxMonth idx, jstTimestamp (idxYear idx) (idxMonth idx)))

/-- Python `cookie_string.split(';')` on a character list. -/
def splitSemis : List Char → List (List Char)
  | [] => [[]]
  | c :: rest =>
    let r := splitSemis rest
    if c = ';' then [] :: r
    else
      match r with
      | [] => [[c]]
      | g :: gs => (c :: g) :: gs

/-- Python `item.split('=', 1)` when `'=' in item`: the characters before the
first `'='` and the characters after it; `none` when no `'='` occurs. -/
def splitEqOnce : List Char → Option (List Char × List Char)
  | [] => none
  | c :: rest =>
    if c = '=' then some ([], rest)
    else (splitEqOnce rest).map (fun p => (c :: p.1, p.2))

/-- Python dict assignment `d[k] = v` on an insertion-ordered association
list: overwrite in place when the key exists, else append. -/
def dictInsert (d : List (String × String)) (k v : String) :
    List (String × String) :=
  if d.any (fun p => p.1 = k) then
    d.map (fun p => if p.1 = k then (k, v) else p)
  else d ++ [(k, v)]

/-- The cookie-dict construction loop of `create_authenticated_session`:
split on `';'`, strip each item, keep only items containing `'='`, and insert
the stripped name/value pair. -/
def parseCookiePairs (cookie_string : String) : List (String × String) :=
  (splitSemis cookie_string.data).foldl (fun acc item =>
    let item := stripChars item
    match splitEqOnce item with
    | some (n, v) =>
        dictInsert acc (String.mk (stripChars n)) (String.mk (stripChars v))
    | none => acc) []

/-- Embedding of `create_authenticated_session`: build the cookie dict, force
the locale cookie `i18n_redirected=ja`, and fail with `none` only if the dict
is empty afterwards.  The session is represented by its cookie dict. -/
def create_authenticated_session (cookie_string : String) :
    Option (List (String × String)) :=
  let cookies_dict := parseCookiePairs cookie_string
  let cookies_dict := dictInsert cookies_dict "i18n_redirected" "ja"
  if cookies_dict.isEmpty then none else some cookies_dict

/-- The three sales data types of `DATA_TYPES` (`type` field `standard` for
the first two, `room_sales` for the third). -/
inductive SalesType
  | time_charge
  | premium_live
  | room_sales
deriving DecidableEq, Repr

/-- Abstraction of one sales-page HTTP response, recording exactly the facts
`fetch_and_process_sales_data` inspects: whether `raise_for_status` passed,
whether the body contains the login markers `ログイン` / `会員登録`, the rows of
the `table-type-02` table when found (each row the list of its `td` texts),
and the room-sales total search: `totalTag = none` when the summary `p`
element is absent, `some none` when it is present but the payment-amount
regex fails, and `some (some g)` when the regex matches with group `g`. -/
structure SalesPage where
  statusOk : Bool
  hasLoginText : Bool
  hasRegisterText : Bool
  table : Option (List (List String))
  totalTag : Option (Option String)
deriving DecidableEq, Repr

/-- One row of the shaped 3-column sales CSV (`分配額, アカウントID, 更新日時`). -/
structure CsvRow3 where
  amount : String
  accountId : String
  updateTime : String
deriving DecidableEq, Repr

/-- The per-row acceptance test of the sales extraction loop: at least 5 `td`
cells, cell 3 stripped and comma-stripped as the amount (accepted only when
`isnumeric`), cell 4 stripped as the account id. -/
def acceptSalesRow (tds : List String) : Option (String × String) :=
  if 5 ≤ tds.length then
    if pyIsNumeric (pyRemoveCommas (pyStrip (tds.getD 3 ""))) then
      some (pyRemoveCommas (pyStrip (tds.getD 3 "")), pyStrip (tds.getD 4 ""))
    else none
  else none

/-- The sales table walk: skip the header row (`rows[1:]`), keep accepted
rows. -/
def extractSalesRows (rows : List (List String)) : List (String × String) :=
  (rows.drop 1).filterMap acceptSalesRow

/-- The `table_data` list of `fetch_and_process_sales_data`: empty when no
table was found. -/
def salesTableData (page : SalesPage) : List (String × String) :=
  match page.table with
  | some rows => extractSalesRows rows
  | none => []

/-- The room-sales `total_amount_str`: `'0'` unless the summary element is
present and the payment-amount pattern matched, in which case the captured
group with separators stripped. -/
def roomTotalStr (page : SalesPage) : String :=
  match page.totalTag with
  | some (some g) => pyRemoveCommas g
  | _ => "0"

/-- The `df_cleaned` row list: room sales prepends the synthetic
`(total, MKsoul)` row; the standard types substitute the `(0, dummy)` sentinel
when no row was accepted. -/
def salesRows (page : SalesPage) (dataType : SalesType) : List (String × String) :=
  let tableData := salesTableData page
  if dataType = SalesType.room_sales then
    (roomTotalStr page, "MKsoul") :: tableData
  else if tableData.isEmpty then [("0", "dummy")] else tableData

/-- The final shaping step: a third `更新日時` column, written only into row 0
(`final_df.loc[0, '更新日時'] = update_time_str`), empty in every later row. -/
def shapeCsv (rows : List (String × String)) (ts : String) : List CsvRow3 :=
  match rows with
  | [] => []
  | r :: rest => ⟨r.1, r.2, ts⟩ :: rest.map (fun q => ⟨q.1, q.2, ""⟩)

/-- The comma-separated headerless text of `to_csv(index=False, header=False)`
for the shaped rows (no field of this pipeline contains a delimiter, so no
quoting arises). -/
def renderSalesCsv (rows : List CsvRow3) : String :=
  String.join (rows.map (fun r =>
    r.amount ++ "," ++ r.accountId ++ "," ++ r.updateTime ++ "\n"))

/-- Embedding of `fetch_and_process_sales_data`: HTTP failure aborts; a
missing table together with a login marker aborts as auth-expired; otherwise
the extracted rows are branched on the data type and shaped with the
run-timestamp in the first row. -/
def fetch_and_process_sales_data (page : SalesPage) (dataType : SalesType)
    (now : JstTime) : Option (List CsvRow3) :=
  if !page.statusOk then none
  else if page.table.isNone && (page.hasLoginText || page.hasRegisterText) then none
  else some (shapeCsv (salesRows page dataType) (formatJstMinute now))

/-- The fixed page cap `KPI_MAX_PAGES` of the KPI pagination loop. -/
def KPI_MAX_PAGES : Nat := 5

/-- The 28 column names of the source's `CSV_HEADERS` constant, in order. -/
def CSV_HEADERS : List String :=
  ["アカウントID", "ルームID", "配信日時", "配信時間(分)", "連続配信日数", "ルーム名",
   "合計視聴数", "視聴会員数", "アクション会員数", "SPギフト使用会員率", "初ルーム来訪者数",
   "初SR来訪者数", "短時間滞在者数", "ルームレベル", "フォロワー数", "フォロワー増減数",
   "Post人数", "獲得支援point", "コメント数", "コメント人数", "初コメント人数",
   "ギフト数", "ギフト人数", "初ギフト人数", "期限あり/期限なしSGのギフティング数",
   "期限あり/期限なしSGのギフティング人数", "期限あり/期限なしSG総額",
   "2023年9月以前のおまけ分(無償SG RS外)"]

/-- One `td` cell of a KPI row: its direct text, and the texts of a nested
`div` element and a nested `a` element when present (the source prefers those
for the room-name and the two identifier columns). -/
structure KpiCell where
  text : String
  divText : Option String
  aText : Option String
deriving DecidableEq, Repr

/-- A `td` placeholder used only for the impossible out-of-range index
accesses (every accepted KPI row has exactly 28 cells). -/
def emptyCell : KpiCell := ⟨"", none, none⟩

/-- Abstraction of one KPI-page HTTP response, with the same conventions as
`SalesPage` (the KPI path tests only the `ログイン` marker). -/
structure KpiPage where
  statusOk : Bool
  bodyHasLoginMarker : Bool
  table : Option (List (List KpiCell))
deriving Repr

/-- Numeric value of a decimal digit character. -/
def digitVal (c : Char) : Nat := c.toNat - 48

/-- Greedy `\d+` at the head of the character list, with accumulator. -/
def readDigits : List Char → Nat → Nat × List Char
  | c :: rest, acc =>
      if c.isDigit then readDigits rest (acc * 10 + digitVal c) else (acc, c :: rest)
  | [], acc => (acc, [])

/-- Attempt to match `\((\d+)m(\d+)s\)` exactly at the head of the list,
returning the two captured numbers. -/
def matchDurGroup : List Char → Option (Nat × Nat)
  | '(' :: rest =>
      match rest with
      | c :: _ =>
        if c.isDigit then
          match readDigits rest 0 with
          | (m, 'm' :: rest2) =>
            match rest2 with
            | c2 :: _ =>
              if c2.isDigit then
                match readDigits rest2 0 with
                | (s, 's' :: ')' :: _) => some (m, s)
                | _ => none
              else none
            | [] => none
          | _ => none
        else none
      | [] => none
  | _ => none

/-- The lazy `.*?\((\d+)m(\d+)s\)` tail of the duration regex: find the first
position at which the parenthesised group matches; a newline stops the search
because `.` does not match newlines. -/
def findDurGroup : List Char → Option (Nat × Nat)
  | [] => none
  | c :: rest =>
      match matchDurGroup (c :: rest) with
      | some r => some r
      | none => if c = '\n' then none else findDurGroup rest

/-- Attempt to match the 19-character prefix
`\d{4}-\d{2}-\d{2}\s\d{2}:\d{2}:\d{2}` at the head of the list, returning the
captured characters and the remainder. -/
def matchDateTime : List Char → Option (List Char × List Char)
  | y1 :: y2 :: y3 :: y4 :: h1 :: o1 :: o2 :: h2 :: d1 :: d2 :: w ::
      t1 :: t2 :: k1 :: t3 :: t4 :: k2 :: t5 :: t6 :: rest =>
    if y1.isDigit && y2.isDigit && y3.isDigit && y4.isDigit && h1 = '-' &&
        o1.isDigit && o2.isDigit && h2 = '-' && d1.isDigit && d2.isDigit &&
        w.isWhitespace && t1.isDigit && t2.isDigit && k1 = ':' &&
        t3.isDigit && t4.isDigit && k2 = ':' && t5.isDigit && t6.isDigit then
      some ([y1, y2, y3, y4, h1, o1, o2, h2, d1, d2, w,
             t1, t2, k1, t3, t4, k2, t5, t6], rest)
    else none
  | _ => none

/-- Embedding of
`re.search(r'(\d{4}-\d{2}-\d{2}\s\d{2}:\d{2}:\d{2}).*?\((\d+)m(\d+)s\)', s)`:
try each start position left to right; at a position where the datetime
matches, look for the first following duration group on the same line;
on failure move one character right.  Returns the captured datetime text and
the two captured numbers. -/
def searchTimeList : List Char → Option (String × Nat × Nat)
  | [] => none
  | c :: rest =>
      match matchDateTime (c :: rest) with
      | some (dt, after) =>
        match findDurGroup after with
        | some (m, s) => some (String.mk dt, m, s)
        | none => searchTimeList rest
      | none => searchTimeList rest

/-- The duration regex search lifted to `String`. -/
def searchTimePattern (s : String) : Option (String × Nat × Nat) :=
  searchTimeList s.data

/-- The special handling of KPI cell index 2: on a regex match, the start
datetime with dashes replaced by slashes and the duration in minutes rounded
up when the seconds are at least 30; otherwise the empty string and 0. -/
def splitTimeCell (s : String) : String × Nat :=
  match searchTimePattern s with
  | some (d, m, sec) => (pyDashToSlash d, if 30 ≤ sec then m + 1 else m)
  | none => ("", 0)

/-- Stripped direct text of cell `i` (`td_tags[i].text.strip()`). -/
def kpiCellText (tds : List KpiCell) (i : Nat) : String :=
  pyStrip ((tds.getD i emptyCell).text)

/-- Identifier cells (indices 0 and 1): prefer the nested `a` element's
stripped text when present. -/
def kpiLinkText (tds : List KpiCell) (i : Nat) : String :=
  match (tds.getD i emptyCell).aText with
  | some a => pyStrip a
  | none => kpiCellText tds i

/-- Room-name cell (index 5): prefer the nested `div` element's stripped text
when present. -/
def kpiRoomName (tds : List KpiCell) : String :=
  match (tds.getD 5 emptyCell).divText with
  | some d => pyStrip d
  | none => kpiCellText tds 5

/-- Comma-stripped cell text, for the count/amount columns. -/
def kpiNum (tds : List KpiCell) (i : Nat) : String :=
  pyRemoveCommas (kpiCellText tds i)

/-- The 28 values of one accepted KPI row in `CSV_HEADERS` order, as the
source's `row_data` dict lays them out into the data frame: indices 2 and 3
from the split time cell, indices 0/1 from the link text, index 5 from the
nested room-name element, the count/amount columns comma-stripped, the
percentage column (index 9) with `%` removed, and the remaining columns as
plain stripped text. -/
def kpiRowValues (tds : List KpiCell) : List String :=
  let time := splitTimeCell (kpiCellText tds 2)
  [kpiLinkText tds 0, kpiLinkText tds 1, time.1, toString time.2,
   kpiCellText tds 4, kpiRoomName tds,
   kpiNum tds 6, kpiNum tds 7, kpiNum tds 8,
   pyRemoveChar '%' (kpiCellText tds 9),
   kpiNum tds 10, kpiNum tds 11, kpiNum tds 12, kpiNum tds 13, kpiNum tds 14,
   kpiNum tds 15, kpiNum tds 16, kpiNum tds 17, kpiNum tds 18, kpiNum tds 19,
   kpiNum tds 20, kpiNum tds 21, kpiNum tds 22, kpiNum tds 23, kpiNum tds 24,
   kpiNum tds 25, kpiNum tds 26,
   kpiCellText tds 27]

/-- KPI per-row extraction: rows with a cell count other than 28 are silently
skipped (`continue`), other rows yield their 28 values. -/
def extractKpiRow (tds : List KpiCell) : Option (List String) :=
  if tds.length = 28 then some (kpiRowValues tds) else none

/-- One KPI page's `page_data`: walk `rows[1:]` and keep accepted rows. -/
def extractKpiPageRows (rows : List (List KpiCell)) : List (List String) :=
  (rows.drop 1).filterMap extractKpiRow

/-- The KPI pagination loop, one recursive step per page: `pages n` is the
response to the request for page `n`; the result pairs the outcome (`none` for
an HTTP failure or detected auth expiry, otherwise the accumulated rows) with
the number of pages fetched.  The stop conditions mirror the source in order:
HTTP failure; no table (auth failure when the login marker is present, else
stop); only a header row; fewer than 1000 accepted rows on this page. -/
def kpiPaginate (pages : Nat → KpiPage) :
    Nat → Nat → List (List String) → Option (List (List String)) × Nat
  | _, 0, acc => (some acc, 0)
  | pageNum, fuel + 1, acc =>
    let page := pages pageNum
    if !page.statusOk then (none, 1)
    else
      match page.table with
      | none => if page.bodyHasLoginMarker then (none, 1) else (some acc, 1)
      | some rows =>
        if rows.length ≤ 1 then (some acc, 1)
        else if (extractKpiPageRows rows).length < 1000 then
          (some (acc ++ extractKpiPageRows rows), 1)
        else
          ((kpiPaginate pages (pageNum + 1) fuel (acc ++ extractKpiPageRows rows)).1,
           (kpiPaginate pages (pageNum + 1) fuel (acc ++ extractKpiPageRows rows)).2 + 1)

/-- The deduplication key: columns 0, 1, 2, 3
(account id, room id, start datetime, duration minutes). -/
def kpiKey (row : List String) : List String :=
  [row.getD 0 "", row.getD 1 "", row.getD 2 "", row.getD 3 ""]

/-- `drop_duplicates(subset=dedup_keys, keep='first')`: keep each row whose
key has not been seen before it. -/
def dedupKeepFirst : List (List String) → List (List String) → List (List String)
  | [], _ => []
  | r :: rest, seen =>
      if kpiKey r ∈ seen then dedupKeepFirst rest seen
      else r :: dedupKeepFirst rest (kpiKey r :: seen)

/-- Embedding of `fetch_and_process_kpi_data`: paginate from page 1 with the
fixed page cap, then deduplicate; `none` exactly when a page failed (HTTP
error or auth expiry).  An empty accumulation yields the empty data frame. -/
def fetch_and_process_kpi_data (pages : Nat → KpiPage) :
    Option (List (List String)) :=
  match kpiPaginate pages 1 KPI_MAX_PAGES [] with
  | (none, _) => none
  | (some acc, _) => some (dedupKeepFirst acc [])

/-- The KPI CSV document written by `process_kpi_tool`
(`to_csv(index=False, header=True)`): the header row followed by the
deduplicated data rows. -/
def kpiCsvDocument (pages : Nat → KpiPage) : Option (List (List String)) :=
  (fetch_and_process_kpi_data pages).map (fun rows => CSV_HEADERS :: rows)

/-! Concrete fixtures used by the witness and counterexample theorems. -/

/-- A fixed run timestamp reading. -/
def t0 : JstTime := ⟨2025, 10, 12, 9, 5⟩

/-- The end-to-end scenario table of the spec: a header row followed by a
valid row `("1,234", "acct1")` and the non-numeric total row `("合計", "")`. -/
def salesScenarioTable : List (List String) :=
  [["h", "h", "h", "h", "h"],
   ["", "", "", "1,234", "acct1"],
   ["", "", "", "合計", ""]]

/-- A healthy sales page whose table has only a header row (zero accepted
rows). -/
def pageHeaderOnly : SalesPage :=
  ⟨true, false, false, some [["h", "h", "h", "h", "h"]], none⟩

/-- A sales page whose body contains the login marker while a data table is
still present (a header-only table here). -/
def pageC9 : SalesPage :=
  ⟨true, true, false, some [["h", "h", "h", "h", "h"]], none⟩

/-- A room-sales page with no table and a present summary element whose
payment-amount pattern failed to match. -/
def pageRoomEmpty : SalesPage := ⟨true, false, false, none, some none⟩

/-- A sales page with no table and the login marker present. -/
def pageAuthExpired : SalesPage := ⟨true, true, false, none, none⟩

/-- KPI responses with no table and no login marker on every page. -/
def noDataPages : Nat → KpiPage := fun _ => ⟨true, false, none⟩

/-- KPI responses with no table and the login marker on every page. -/
def kpiAuthPages : Nat → KpiPage := fun _ => ⟨true, true, none⟩

/-- A KPI row of exactly 28 (empty) cells, so it is accepted. -/
def goodKpiRow : List KpiCell := List.replicate 28 emptyCell

/-- A KPI page whose table holds a header row plus `n` accepted rows. -/
def kpiPageOf (n : Nat) : KpiPage :=
  ⟨true, false, some ([] :: List.replicate n goodKpiRow)⟩

/-- The pagination scenario of the spec: pages 1 and 2 yield 1000 accepted
rows each, every later page yields 400. -/
def scenPages : Nat → KpiPage := fun n =>
  if n ≤ 2 then kpiPageOf 1000 else kpiPageOf 400

/-- A 28-cell KPI row whose combined start-datetime/duration cell (index 2)
matches the duration pattern with 61 minutes and 30 seconds. -/
def c8row : List KpiCell :=
  [emptyCell, emptyCell, ⟨"2025-01-02 03:04:05 (61m30s)", none, none⟩] ++
    List.replicate 25 emptyCell

/-! Helper lemmas. -/

/-- Characterisation of the `isnumeric` acceptance test. -/
theorem pyIsNumeric_iff (s : String) :
    pyIsNumeric s = true ↔ s.data ≠ [] ∧ ∀ c ∈ s.data, c.isDigit = true := by
  unfold pyIsNumeric
  rw [Bool.and_eq_true, Bool.not_eq_true', List.all_eq_true]
  cases s.data <;> simp

/-- Dict assignment always leaves the assigned pair in the dict. -/
theorem dictInsert_mem (d : List (String × String)) (k v : String) :
    (k, v) ∈ dictInsert d k v := by
  unfold dictInsert
  split
  · next h =>
    rw [List.any_eq_true] at h
    obtain ⟨p, hp, hpk⟩ := h
    rw [List.mem_map]
    refine ⟨p, hp, ?_⟩
    have : p.1 = k := by simpa using hpk
    simp [this]
  · exact List.mem_append_right _ (List.mem_singleton.mpr rfl)

/-- Dict assignment never produces an empty dict. -/
theorem dictInsert_ne_nil (d : List (String × String)) (k v : String) :
    dictInsert d k v ≠ [] := by
  unfold dictInsert
  split
  · next h =>
    intro hnil
    rw [List.map_eq_nil_iff] at hnil
    subst hnil
    simp at h
  · simp

/-- The shaped sales row list is never empty: either the synthetic total row,
the sentinel row, or at least one accepted row is present. -/
theorem salesRows_ne_nil (page : SalesPage) (ty : SalesType) :
    salesRows page ty ≠ [] := by
  unfold salesRows
  by_cases h : ty = SalesType.room_sales
  · simp [h]
  · by_cases he : (salesTableData page).isEmpty
    · simp [h, he]
    · simp only [h, if_false]
      rw [if_neg he]
      intro hn
      rw [hn] at he
      simp at he

/-- Unfolding of the shaping step on a non-empty row list. -/
theorem shapeCsv_cons (r : String × String) (rest : List (String × String)) (ts : String) :
    shapeCsv (r :: rest) ts = ⟨r.1, r.2, ts⟩ :: rest.map (fun q => ⟨q.1, q.2, ""⟩) := rfl

/-- A successful sales run returns exactly the shaped extracted rows. -/
theorem fetch_sales_some (page : SalesPage) (ty : SalesType) (now : JstTime)
    (doc : List CsvRow3) (h : fetch_and_process_sales_data page ty now = some doc) :
    doc = shapeCsv (salesRows page ty) (formatJstMinute now) := by
  unfold fetch_and_process_sales_data at h
  split at h
  · exact absurd h (by simp)
  · split at h
    · exact absurd h (by simp)
    · exact (Option.some.injEq _ _).mp h |>.symm

/-- Exhausted fuel ends the pagination with the accumulated rows. -/
theorem kpiPaginate_zero (pages : Nat → KpiPage) (n : Nat) (acc : List (List String)) :
    kpiPaginate pages n 0 acc = (some acc, 0) := by
  rw [kpiPaginate]

/-- One unfolding step of the pagination loop. -/
theorem kpiPaginate_succ (pages : Nat → KpiPage) (pageNum fuel : Nat)
    (acc : List (List String)) :
    kpiPaginate pages pageNum (fuel + 1) acc =
      if !(pages pageNum).statusOk then (none, 1)
      else
        match (pages pageNum).table with
        | none =>
            if (pages pageNum).bodyHasLoginMarker then (none, 1) else (some acc, 1)
        | some rows =>
          if rows.length ≤ 1 then (some acc, 1)
          else if (extractKpiPageRows rows).length < 1000 then
            (some (acc ++ extractKpiPageRows rows), 1)
          else
            ((kpiPaginate pages (pageNum + 1) fuel (acc ++ extractKpiPageRows rows)).1,
             (kpiPaginate pages (pageNum + 1) fuel (acc ++ extractKpiPageRows rows)).2 + 1) := by
  rw [kpiPaginate]

/-- The number of fetched pages never exceeds the fuel. -/
theorem kpiPaginate_count_le (pages : Nat → KpiPage) :
    ∀ (fuel n : Nat) (acc : List (List String)),
      (kpiPaginate pages n fuel acc).2 ≤ fuel := by
  intro fuel
  induction fuel with
  | zero => intro n acc; rw [kpiPaginate_zero]
  | succ k ih =>
    intro n acc
    rw [kpiPaginate_succ]
    by_cases hok : (pages n).statusOk
    · simp only [hok, Bool.not_true, Bool.false_eq_true, if_false]
      cases htab : (pages n).table with
      | none =>
        by_cases hm : (pages n).bodyHasLoginMarker <;> simp [hm]
      | some rows =>
        by_cases h1 : rows.length ≤ 1
        · simp [h1]
        · by_cases h2 : (extractKpiPageRows rows).length < 1000
          · simp [h1, h2]
          · simp only [h1, h2, if_false]
            exact Nat.succ_le_succ (ih (n + 1) (acc ++ extractKpiPageRows rows))
    · simp [hok]

/-- Filtering a constant replication through a succeeding partial map. -/
theorem filterMap_replicate_some {α β : Type} (f : α → Option β) (a : α) (b : β)
    (h : f a = some b) (n : Nat) :
    (List.replicate n a).filterMap f = List.replicate n b := by
  induction n with
  | zero => rfl
  | succ k ih => simp [List.replicate_succ, List.filterMap_cons, h, ih]

/-- The 28-cell fixture row is accepted. -/
theorem extractKpiRow_goodKpiRow :
    extractKpiRow goodKpiRow = some (kpiRowValues goodKpiRow) := by
  unfold extractKpiRow
  rw [if_pos (by simp [goodKpiRow])]

/-- Page extraction on a header row plus `n` copies of the fixture row. -/
theorem extractKpiPageRows_header_replicate (n : Nat) :
    extractKpiPageRows ([] :: List.replicate n goodKpiRow) =
      List.replicate n (kpiRowValues goodKpiRow) := by
  unfold extractKpiPageRows
  simp only [List.drop_succ_cons, List.drop_zero]
  exact filterMap_replicate_some _ _ _ extractKpiRow_goodKpiRow n

/-- Pagination step: a full page (1000 or more accepted rows) continues to the
next page. -/
theorem kpiPaginate_continue (pages : Nat → KpiPage) (n fuel : Nat)
    (acc : List (List String)) (rows : List (List KpiCell))
    (hok : (pages n).statusOk = true) (htab : (pages n).table = some rows)
    (hlen : 1 < rows.length) (hbig : ¬(extractKpiPageRows rows).length < 1000) :
    kpiPaginate pages n (fuel + 1) acc =
      ((kpiPaginate pages (n + 1) fuel (acc ++ extractKpiPageRows rows)).1,
       (kpiPaginate pages (n + 1) fuel (acc ++ extractKpiPageRows rows)).2 + 1) := by
  rw [kpiPaginate_succ]
  simp [hok, htab, Nat.not_le.mpr hlen, hbig]

/-- Pagination step: a short page stops after including its rows. -/
theorem kpiPaginate_small (pages : Nat → KpiPage) (n fuel : Nat)
    (acc : List (List String)) (rows : List (List KpiCell))
    (hok : (pages n).statusOk = true) (htab : (pages n).table = some rows)
    (hlen : 1 < rows.length) (hsmall : (extractKpiPageRows rows).length < 1000) :
    kpiPaginate pages n (fuel + 1) acc = (some (acc ++ extractKpiPageRows rows), 1) := by
  rw [kpiPaginate_succ]
  simp [hok, htab, Nat.not_le.mpr hlen, hsmall]

/-- Pagination step: an HTTP failure aborts the operation. -/
theorem kpiPaginate_httpFail (pages : Nat → KpiPage) (n fuel : Nat)
    (acc : List (List String)) (hok : (pages n).statusOk = false) :
    kpiPaginate pages n (fuel + 1) acc = (none, 1) := by
  rw [kpiPaginate_succ]
  simp [hok]

/-- Pagination step: a page with no table aborts on a login marker and
otherwise stops with the accumulated rows. -/
theorem kpiPaginate_noTable (pages : Nat → KpiPage) (n fuel : Nat)
    (acc : List (List String)) (hok : (pages n).statusOk = true)
    (htab : (pages n).table = none) :
    kpiPaginate pages n (fuel + 1) acc =
      (if (pages n).bodyHasLoginMarker then (none, 1) else (some acc, 1)) := by
  rw [kpiPaginate_succ]
  simp [hok, htab]

/-- Pagination step: a table with only a header row stops. -/
theorem kpiPaginate_headerOnly (pages : Nat → KpiPage) (n fuel : Nat)
    (acc : List (List String)) (rows : List (List KpiCell))
    (hok : (pages n).statusOk = true) (htab : (pages n).table = some rows)
    (h1 : rows.length ≤ 1) :
    kpiPaginate pages n (fuel + 1) acc = (some acc, 1) := by
  rw [kpiPaginate_succ]
  simp [hok, htab, h1]

/-- The 1000/1000/400 pagination scenario: three pages fetched, 2400 rows
accumulated. -/
theorem kpiScenario :
    kpiPaginate scenPages 1 KPI_MAX_PAGES [] =
      (some (List.replicate 2400 (kpiRowValues goodKpiRow)), 3) := by
  have hp1 : scenPages 1 = kpiPageOf 1000 := by norm_num [scenPages]
  have hp2 : scenPages 2 = kpiPageOf 1000 := by norm_num [scenPages]
  have hp3 : scenPages 3 = kpiPageOf 400 := by norm_num [scenPages]
  have e1000 := extractKpiPageRows_header_replicate 1000
  have e400 := extractKpiPageRows_header_replicate 400
  show kpiPaginate scenPages 1 (4 + 1) [] = _
  rw [kpiPaginate_continue scenPages 1 4 [] ([] :: List.replicate 1000 goodKpiRow)
    (by rw [hp1]; rfl) (by rw [hp1]; rfl)
    (by rw [List.length_cons, List.length_replicate]; omega)
    (by rw [e1000, List.length_replicate]; omega)]
  show (((kpiPaginate scenPages 2 (3 + 1)
      ([] ++ extractKpiPageRows ([] :: List.replicate 1000 goodKpiRow))).1,
    (kpiPaginate scenPages 2 (3 + 1)
      ([] ++ extractKpiPageRows ([] :: List.replicate 1000 goodKpiRow))).2 + 1)) = _
  rw [kpiPaginate_continue scenPages 2 3 _ ([] :: List.replicate 1000 goodKpiRow)
    (by rw [hp2]; rfl) (by rw [hp2]; rfl)
    (by rw [List.length_cons, List.length_replicate]; omega)
    (by rw [e1000, List.length_replicate]; omega)]
  rw [kpiPaginate_small scenPages 3 2 _ ([] :: List.replicate 400 goodKpiRow)
    (by rw [hp3]; rfl) (by rw [hp3]; rfl)
    (by rw [List.length_cons, List.length_replicate]; omega)
    (by rw [e400, List.length_replicate]; omega)]
  rw [e1000, e400]
  simp only [List.nil_append, ← List.replicate_add]

/-- An accepted row is exactly its 28 extracted values. -/
theorem extractKpiRow_some (tds : List KpiCell) (r : List String)
    (h : extractKpiRow tds = some r) : r = kpiRowValues tds := by
  unfold extractKpiRow at h
  split at h
  · exact ((Option.some.injEq _ _).mp h).symm
  · exact absurd h (by simp)

/-- Every extracted KPI row has exactly 28 values. -/
theorem kpiRowValues_length (tds : List KpiCell) : (kpiRowValues tds).length = 28 := rfl

/-- Column 2 of an extracted row is the split start datetime. -/
theorem kpiRowValues_getD2 (tds : List KpiCell) :
    (kpiRowValues tds).getD 2 "" = (splitTimeCell (kpiCellText tds 2)).1 := rfl

/-- Column 3 of an extracted row is the rendered duration. -/
theorem kpiRowValues_getD3 (tds : List KpiCell) :
    (kpiRowValues tds).getD 3 "" = toString (splitTimeCell (kpiCellText tds 2)).2 := rfl

/-- Deduplication only removes rows: the output is a subset of the input. -/
theorem dedupKeepFirst_subset :
    ∀ (l seen : List (List String)) (r : List String),
      r ∈ dedupKeepFirst l seen → r ∈ l := by
  intro l
  induction l with
  | nil => intro seen r h; simp [dedupKeepFirst] at h
  | cons x rest ih =>
    intro seen r h
    rw [dedupKeepFirst] at h
    split at h
    · exact List.mem_cons_of_mem _ (ih _ r h)
    · rcases List.mem_cons.mp h with h1 | h1
      · exact h1 ▸ List.mem_cons_self _ _
      · exact List.mem_cons_of_mem _ (ih _ r h1)

/-- Every page-extracted row comes from some accepted cell row. -/
theorem extractKpiPageRows_mem (rows : List (List KpiCell)) (r : List String)
    (h : r ∈ extractKpiPageRows rows) : ∃ tds, extractKpiRow tds = some r := by
  unfold extractKpiPageRows at h
  obtain ⟨tds, -, htds⟩ := List.mem_filterMap.mp h
  exact ⟨tds, htds⟩

/-- Every row accumulated by the pagination loop has exactly 28 values. -/
theorem kpiPaginate_len28 (pages : Nat → KpiPage) :
    ∀ (fuel n : Nat) (acc res : List (List String)) (cnt : Nat),
      (∀ r ∈ acc, r.length = 28) →
      kpiPaginate pages n fuel acc = (some res, cnt) →
      ∀ r ∈ res, r.length = 28 := by
  intro fuel
  induction fuel with
  | zero =>
    intro n acc res cnt hacc h
    rw [kpiPaginate_zero] at h
    have hres : acc = res := by
      have := congrArg Prod.fst h
      simpa using this
    exact hres ▸ hacc
  | succ k ih =>
    intro n acc res cnt hacc h
    by_cases hok : (pages n).statusOk
    · cases htab : (pages n).table with
      | none =>
        rw [kpiPaginate_noTable pages n k acc hok htab] at h
        by_cases hm : (pages n).bodyHasLoginMarker
        · rw [if_pos hm] at h
          exact absurd (congrArg Prod.fst h) (by simp)
        · rw [if_neg hm] at h
          have hres : acc = res := by
            have := congrArg Prod.fst h
            simpa using this
          exact hres ▸ hacc
      | some rows =>
        have hstep : ∀ r ∈ acc ++ extractKpiPageRows rows, r.length = 28 := by
          intro r hrr
          rcases List.mem_append.mp hrr with h1 | h1
          · exact hacc r h1
          · obtain ⟨tds, htds⟩ := extractKpiPageRows_mem rows r h1
            have := extractKpiRow_some tds r htds
            rw [this, kpiRowValues_length]
        by_cases h1 : rows.length ≤ 1
        · rw [kpiPaginate_headerOnly pages n k acc rows hok htab h1] at h
          have hres : acc = res := by
            have := congrArg Prod.fst h
            simpa using this
          exact hres ▸ hacc
        · by_cases h2 : (extractKpiPageRows rows).length < 1000
          · rw [kpiPaginate_small pages n k acc rows hok htab (Nat.not_le.mp h1) h2] at h
            have hres : acc ++ extractKpiPageRows rows = res := by
              have := congrArg Prod.fst h
              simpa using this
            exact hres ▸ hstep
          · rw [kpiPaginate_continue pages n k acc rows hok htab (Nat.not_le.mp h1) h2] at h
            have hfst := congrArg Prod.fst h
            simp only at hfst
            cases hrec : kpiPaginate pages (n + 1) k (acc ++ extractKpiPageRows rows) with
            | mk o c =>
              simp only [hrec] at hfst
              exact ih (n + 1) (acc ++ extractKpiPageRows rows) res c hstep
                (by rw [hrec, Prod.mk.injEq]; exact ⟨hfst, rfl⟩)
    · rw [Bool.not_eq_true] at hok
      rw [kpiPaginate_httpFail pages n k acc hok] at h
      exact absurd (congrArg Prod.fst h) (by simp)

/-! Claim theorems. -/

/-- Claim C1, corrected: the source's `CSV_HEADERS` constant has 28 named
fields, not the 27 the claim states; with that one correction the claim
holds — every generated KPI CSV document begins with the header row in the
fixed `CSV_HEADERS` order, followed by exactly one data row per deduplicated
extracted row, each data row carrying all 28 cells (no sparse cells). -/
theorem c1_kpi_csv_header_amended :
    CSV_HEADERS.length = 28 ∧
    ∀ (pages : Nat → KpiPage) (doc : List (List String)),
      kpiCsvDocument pages = some doc →
      doc.head? = some CSV_HEADERS ∧
      (∃ rows, fetch_and_process_kpi_data pages = some rows ∧ doc.tail = rows) ∧
      ∀ r ∈ doc.tail, r.length = 28 := by
  refine ⟨rfl, ?_⟩
  intro pages doc h
  unfold kpiCsvDocument at h
  cases hf : fetch_and_process_kpi_data pages with
  | none => rw [hf] at h; exact absurd h (by simp)
  | some rows =>
    rw [hf] at h
    simp only [Option.map_some'] at h
    have hdoc : doc = CSV_HEADERS :: rows := ((Option.some.injEq _ _).mp h).symm
    subst hdoc
    refine ⟨rfl, ⟨rows, rfl, rfl⟩, ?_⟩
    intro r hr
    simp only [List.tail_cons] at hr
    unfold fetch_and_process_kpi_data at hf
    cases hkp : kpiPaginate pages 1 KPI_MAX_PAGES [] with
    | mk o cnt =>
      rw [hkp] at hf
      cases o with
      | none => simp at hf
      | some acc =>
        simp only at hf
        have hrows : rows = dedupKeepFirst acc [] := ((Option.some.injEq _ _).mp hf).symm
        subst hrows
        exact kpiPaginate_len28 pages KPI_MAX_PAGES 1 [] acc cnt (by simp) hkp r
          (dedupKeepFirst_subset acc [] r hr)

/-- Claim C1, counterexample to the stated field count: a run with no data
produces the header-only document, whose header row has 28 fields, not 27. -/
theorem c1_kpi_csv_header_counterexample :
    kpiCsvDocument noDataPages = some [CSV_HEADERS] ∧
    CSV_HEADERS.length = 28 ∧ ¬CSV_HEADERS.length = 27 := by
  refine ⟨rfl, rfl, by decide⟩

/-- Claim C1, witness: the amended theorem applied to the no-data run. -/
theorem c1_kpi_csv_header_witness :
    [CSV_HEADERS].head? = some CSV_HEADERS ∧
    (∃ rows, fetch_and_process_kpi_data noDataPages = some rows ∧
      [CSV_HEADERS].tail = rows) ∧
    ∀ r ∈ [CSV_HEADERS].tail, r.length = 28 :=
  c1_kpi_csv_header_amended.2 noDataPages [CSV_HEADERS] rfl

/-- Claim C2: every timestamp in the sales month list is the Unix epoch
second of that month's first day at wall-clock midnight in UTC+9, and the
regression values for 2025-10 and 2025-09 are exactly 1759244400 and
1756652400. -/
theorem c2_sales_month_timestamp :
    (∀ todayY todayM y m ts : Nat,
      (y, m, ts) ∈ get_sales_months todayY todayM →
      ts = unixEpochOfJstMidnight y m) ∧
    jstTimestamp 2025 10 = 1759244400 ∧ jstTimestamp 2025 9 = 1756652400 := by
  refine ⟨?_, by decide, by decide⟩
  intro tY tM y m ts hmem
  unfold get_sales_months at hmem
  simp only [List.mem_map, List.mem_range] at hmem
  obtain ⟨i, -, heq⟩ := hmem
  rw [Prod.ext_iff, Prod.ext_iff] at heq
  obtain ⟨h1, h2, h3⟩ := heq
  simp only at h1 h2 h3
  subst h1 h2 h3
  rfl

/-- Claim C2, witness: the month 2025-10 is in the list computed when today
is 2025-10, and the theorem yields its UTC+9 midnight epoch second. -/
theorem c2_sales_month_timestamp_witness :
    (2025, 10, 1759244400) ∈ get_sales_months 2025 10 ∧
    1759244400 = unixEpochOfJstMidnight 2025 10 :=
  ⟨by decide, c2_sales_month_timestamp.1 2025 10 2025 10 1759244400 (by decide)⟩

/-- Claim C3: a STANDARD (time-charge / premium-live) run in which zero rows
are accepted — including a missing table without login markers — produces
exactly the single sentinel row `0,dummy,<timestamp>`. -/
theorem c3_standard_sentinel :
    ∀ (page : SalesPage) (ty : SalesType) (now : JstTime),
      (ty = SalesType.time_charge ∨ ty = SalesType.premium_live) →
      page.statusOk = true →
      (page.table = none → page.hasLoginText = false ∧ page.hasRegisterText = false) →
      salesTableData page = [] →
      fetch_and_process_sales_data page ty now =
        some [⟨"0", "dummy", formatJstMinute now⟩] := by
  intro page ty now hty hok hmk hempty
  unfold fetch_and_process_sales_data
  rw [hok]
  have hguard : (page.table.isNone && (page.hasLoginText || page.hasRegisterText)) = false := by
    cases htab : page.table with
    | none => obtain ⟨h1, h2⟩ := hmk htab; simp [h1, h2]
    | some rows => simp [htab]
  rw [hguard]
  simp only [Bool.not_true, if_false, Bool.false_eq_true]
  have hrows : salesRows page ty = [("0", "dummy")] := by
    unfold salesRows
    rcases hty with h | h <;> subst h <;> simp [hempty]
  rw [hrows]
  rfl

/-- Claim C3, witness: a header-only table yields the sentinel document. -/
theorem c3_standard_sentinel_witness :
    fetch_and_process_sales_data pageHeaderOnly SalesType.time_charge t0 =
      some [⟨"0", "dummy", formatJstMinute t0⟩] :=
  c3_standard_sentinel pageHeaderOnly SalesType.time_charge t0 (Or.inl rfl) rfl
    (fun h => absurd h (by decide)) rfl

/-- Claim C4: every successful sales run yields a non-empty, headerless
3-column document whose run timestamp appears exactly in the first row's
third column, every later row's third column being empty, rendered as
comma-separated lines. -/
theorem c4_sales_csv_layout :
    (∀ (page : SalesPage) (ty : SalesType) (now : JstTime) (doc : List CsvRow3),
      fetch_and_process_sales_data page ty now = some doc →
      doc ≠ [] ∧
      doc.head?.map CsvRow3.updateTime = some (formatJstMinute now) ∧
      (∀ r ∈ doc.tail, r.updateTime = "") ∧
      renderSalesCsv doc = String.join (doc.map (fun r =>
        r.amount ++ "," ++ r.accountId ++ "," ++ r.updateTime ++ "\n"))) ∧
    formatJstMinute ⟨2025, 10, 12, 9, 5⟩ = "2025/10/12 09:05" := by
  refine ⟨?_, by decide⟩
  intro page ty now doc h
  have hdoc := fetch_sales_some page ty now doc h
  obtain ⟨r, rest, hcons⟩ := List.exists_cons_of_ne_nil (salesRows_ne_nil page ty)
  rw [hcons, shapeCsv_cons] at hdoc
  subst hdoc
  refine ⟨by simp, by simp, ?_, rfl⟩
  intro x hx
  simp only [List.tail_cons, List.mem_map] at hx
  obtain ⟨q, -, hq⟩ := hx
  rw [← hq]

/-- Claim C4, witness: the layout facts instantiated on the sentinel
document of a header-only page. -/
theorem c4_sales_csv_layout_witness :
    [(⟨"0", "dummy", formatJstMinute t0⟩ : CsvRow3)] ≠ [] ∧
    [(⟨"0", "dummy", formatJstMinute t0⟩ : CsvRow3)].head?.map CsvRow3.updateTime =
      some (formatJstMinute t0) ∧
    (∀ r ∈ [(⟨"0", "dummy", formatJstMinute t0⟩ : CsvRow3)].tail, r.updateTime = "") ∧
    renderSalesCsv [(⟨"0", "dummy", formatJstMinute t0⟩ : CsvRow3)] =
      String.join ([(⟨"0", "dummy", formatJstMinute t0⟩ : CsvRow3)].map (fun r =>
        r.amount ++ "," ++ r.accountId ++ "," ++ r.updateTime ++ "\n")) :=
  c4_sales_csv_layout.1 pageHeaderOnly SalesType.time_charge t0 _ rfl

/-- Claim C5: a sales table row is accepted exactly when it has at least 5
cells and cell 3, stripped of separators, is a non-empty string of decimal
digits; an accepted row maps cell 3 to the amount and cell 4 to the account
id; and the spec's two-row scenario extracts exactly `("1234", "acct1")`. -/
theorem c5_sales_row_acceptance :
    (∀ tds : List String, (acceptSalesRow tds).isSome = true ↔
      (5 ≤ tds.length ∧ (pyRemoveCommas (pyStrip (tds.getD 3 ""))).data ≠ [] ∧
        ∀ c ∈ (pyRemoveCommas (pyStrip (tds.getD 3 ""))).data, c.isDigit = true)) ∧
    (∀ (tds : List String) (p : String × String), acceptSalesRow tds = some p →
      p = (pyRemoveCommas (pyStrip (tds.getD 3 "")), pyStrip (tds.getD 4 ""))) ∧
    extractSalesRows salesScenarioTable = [("1234", "acct1")] := by
  refine ⟨?_, ?_, by decide⟩
  · intro tds
    unfold acceptSalesRow
    by_cases h5 : 5 ≤ tds.length
    · rw [if_pos h5]
      by_cases hn : pyIsNumeric (pyRemoveCommas (pyStrip (tds.getD 3 ""))) = true
      · rw [if_pos hn]
        simpa [h5] using (pyIsNumeric_iff _).mp hn
      · rw [if_neg hn]
        simp only [Option.isSome_none, Bool.false_eq_true, false_iff]
        rintro ⟨-, h1, h2⟩
        exact hn ((pyIsNumeric_iff _).mpr ⟨h1, h2⟩)
    · rw [if_neg h5]
      simp [h5]
  · intro tds p h
    unfold acceptSalesRow at h
    split at h
    · split at h
      · exact ((Option.some.injEq _ _).mp h).symm
      · exact absurd h (by simp)
    · exact absurd h (by simp)

/-- Claim C5, witness: the accepted scenario row maps to its stripped amount
and account id. -/
theorem c5_sales_row_acceptance_witness :
    acceptSalesRow ["", "", "", "1,234", "acct1"] = some ("1234", "acct1") ∧
    ("1234", "acct1") =
      (pyRemoveCommas (pyStrip (["", "", "", "1,234", "acct1"].getD 3 "")),
       pyStrip (["", "", "", "1,234", "acct1"].getD 4 "")) :=
  ⟨by decide, c5_sales_row_acceptance.2.1 ["", "", "", "1,234", "acct1"]
    ("1234", "acct1") (by decide)⟩

/-- Claim C6: every successful room-sales run puts the synthetic
`(totalOrZero, MKsoul)` row first, followed by the accepted per-room rows in
order; a missing summary element or a failed pattern gives the total "0";
zero per-room rows leave the single synthetic row (no dummy substitution). -/
theorem c6_room_sales_rows :
    ∀ (page : SalesPage) (now : JstTime) (doc : List CsvRow3),
      fetch_and_process_sales_data page SalesType.room_sales now = some doc →
      doc.head? = some ⟨roomTotalStr page, "MKsoul", formatJstMinute now⟩ ∧
      doc.tail = (salesTableData page).map (fun q => ⟨q.1, q.2, ""⟩) ∧
      ((page.totalTag = none ∨ page.totalTag = some none) → roomTotalStr page = "0") ∧
      (salesTableData page = [] →
        doc = [⟨roomTotalStr page, "MKsoul", formatJstMinute now⟩]) := by
  intro page now doc h
  have hdoc := fetch_sales_some page SalesType.room_sales now doc h
  have hrows : salesRows page SalesType.room_sales =
      (roomTotalStr page, "MKsoul") :: salesTableData page := by
    unfold salesRows; simp
  rw [hrows, shapeCsv_cons] at hdoc
  subst hdoc
  refine ⟨rfl, rfl, ?_, ?_⟩
  · rintro (ht | ht) <;> simp [roomTotalStr, ht]
  · intro hempty
    rw [hempty]
    rfl

/-- Claim C6, witness: a room-sales page with no table and a failed total
pattern yields the single `0,MKsoul` row. -/
theorem c6_room_sales_rows_witness :
    [(⟨"0", "MKsoul", formatJstMinute t0⟩ : CsvRow3)].head? =
      some ⟨roomTotalStr pageRoomEmpty, "MKsoul", formatJstMinute t0⟩ ∧
    [(⟨"0", "MKsoul", formatJstMinute t0⟩ : CsvRow3)].tail =
      (salesTableData pageRoomEmpty).map (fun q => ⟨q.1, q.2, ""⟩) ∧
    ((pageRoomEmpty.totalTag = none ∨ pageRoomEmpty.totalTag = some none) →
      roomTotalStr pageRoomEmpty = "0") ∧
    (salesTableData pageRoomEmpty = [] →
      [(⟨"0", "MKsoul", formatJstMinute t0⟩ : CsvRow3)] =
        [⟨roomTotalStr pageRoomEmpty, "MKsoul", formatJstMinute t0⟩]) :=
  c6_room_sales_rows pageRoomEmpty t0 [⟨"0", "MKsoul", formatJstMinute t0⟩] rfl

/-- Claim C7: KPI pagination fetches at most `KPI_MAX_PAGES` pages; a page
with no table stops (failing on a login marker), a header-only table stops,
a page with fewer than 1000 accepted rows stops after its rows are included;
and the 1000/1000/400 scenario fetches exactly 3 pages with all 2400 rows
included. -/
theorem c7_kpi_pagination :
    (∀ pages : Nat → KpiPage,
      (kpiPaginate pages 1 KPI_MAX_PAGES []).2 ≤ KPI_MAX_PAGES) ∧
    (∀ (pages : Nat → KpiPage) (n fuel : Nat) (acc : List (List String)),
      (pages n).statusOk = true → (pages n).table = none →
      kpiPaginate pages n (fuel + 1) acc =
        (if (pages n).bodyHasLoginMarker then (none, 1) else (some acc, 1))) ∧
    (∀ (pages : Nat → KpiPage) (n fuel : Nat) (acc : List (List String))
        (rows : List (List KpiCell)),
      (pages n).statusOk = true → (pages n).table = some rows → rows.length ≤ 1 →
      kpiPaginate pages n (fuel + 1) acc = (some acc, 1)) ∧
    (∀ (pages : Nat → KpiPage) (n fuel : Nat) (acc : List (List String))
        (rows : List (List KpiCell)),
      (pages n).statusOk = true → (pages n).table = some rows → 1 < rows.length →
      (extractKpiPageRows rows).length < 1000 →
      kpiPaginate pages n (fuel + 1) acc = (some (acc ++ extractKpiPageRows rows), 1)) ∧
    kpiPaginate scenPages 1 KPI_MAX_PAGES [] =
      (some (List.replicate 2400 (kpiRowValues goodKpiRow)), 3) ∧
    (List.replicate 2400 (kpiRowValues goodKpiRow)).length = 2400 := by
  refine ⟨?_, ?_, ?_, ?_, kpiScenario, by rw [List.length_replicate]⟩
  · intro pages
    exact kpiPaginate_count_le pages KPI_MAX_PAGES 1 []
  · intro pages n fuel acc hok htab
    exact kpiPaginate_noTable pages n fuel acc hok htab
  · intro pages n fuel acc rows hok htab h1
    exact kpiPaginate_headerOnly pages n fuel acc rows hok htab h1
  · intro pages n fuel acc rows hok htab h1 h2
    exact kpiPaginate_small pages n fuel acc rows hok htab h1 h2

/-- Claim C7, witness: the no-table step applied to the fixed
login-marker responses. -/
theorem c7_kpi_pagination_witness :
    kpiPaginate kpiAuthPages 1 (4 + 1) [] =
      (if (kpiAuthPages 1).bodyHasLoginMarker then (none, 1) else (some [], 1)) :=
  c7_kpi_pagination.2.1 kpiAuthPages 1 4 [] rfl rfl

/-- Claim C8: rows with a cell count other than 28 are silently skipped; on
an accepted row, when the combined cell matches the duration pattern with
minutes `m` and seconds `s` the duration column is `m`, rounded up by one
when `s ≥ 30`, and the start-datetime column is the match with dashes
replaced by slashes; when the pattern does not match they are `""` and
`"0"`. -/
theorem c8_kpi_time_split :
    (∀ tds : List KpiCell, tds.length ≠ 28 → extractKpiRow tds = none) ∧
    (∀ (tds : List KpiCell) (r : List String) (d : String) (m s : Nat),
      extractKpiRow tds = some r →
      searchTimePattern (kpiCellText tds 2) = some (d, m, s) →
      r.getD 2 "" = pyDashToSlash d ∧
      r.getD 3 "" = toString (if 30 ≤ s then m + 1 else m)) ∧
    (∀ (tds : List KpiCell) (r : List String),
      extractKpiRow tds = some r →
      searchTimePattern (kpiCellText tds 2) = none →
      r.getD 2 "" = "" ∧ r.getD 3 "" = "0") := by
  refine ⟨?_, ?_, ?_⟩
  · intro tds h
    unfold extractKpiRow
    rw [if_neg h]
  · intro tds r d m s hr hs
    rw [extractKpiRow_some tds r hr, kpiRowValues_getD2, kpiRowValues_getD3]
    unfold splitTimeCell
    rw [hs]
    exact ⟨rfl, rfl⟩
  · intro tds r hr hs
    rw [extractKpiRow_some tds r hr, kpiRowValues_getD2, kpiRowValues_getD3]
    unfold splitTimeCell
    rw [hs]
    exact ⟨rfl, rfl⟩

/-- Claim C8, witness: the fixture row's combined cell
`2025-01-02 03:04:05 (61m30s)` splits into the slashed start datetime and the
rounded-up duration 62. -/
theorem c8_kpi_time_split_witness :
    searchTimePattern (kpiCellText c8row 2) = some ("2025-01-02 03:04:05", 61, 30) ∧
    extractKpiRow c8row = some (kpiRowValues c8row) ∧
    (kpiRowValues c8row).getD 2 "" = "2025/01/02 03:04:05" ∧
    (kpiRowValues c8row).getD 3 "" = "62" := by
  have hs : searchTimePattern (kpiCellText c8row 2) =
      some ("2025-01-02 03:04:05", 61, 30) := by decide
  have hr : extractKpiRow c8row = some (kpiRowValues c8row) := by
    unfold extractKpiRow
    rw [if_pos (by decide)]
  have h := c8_kpi_time_split.2.1 c8row (kpiRowValues c8row)
    "2025-01-02 03:04:05" 61 30 hr hs
  refine ⟨hs, hr, ?_, ?_⟩
  · rw [h.1]; decide
  · rw [h.2]; decide

/-- Claim C9, counterexample: a response whose body contains the login
marker but in which a data table is still found is processed normally — the
sales fetch returns a document instead of failing as auth-expired, so the
claim as stated (for every fetch with a marker) is false on the code. -/
theorem c9_login_marker_counterexample :
    pageC9.hasLoginText = true ∧ pageC9.statusOk = true ∧
    fetch_and_process_sales_data pageC9 SalesType.time_charge t0 =
      some [⟨"0", "dummy", formatJstMinute t0⟩] := by
  refine ⟨rfl, rfl, by decide⟩

/-- Claim C9, amended: for every fetch in which no data table is found and
the body contains a login-page marker, the operation fails as auth-expired
(returning no document) even when the HTTP status is 200 — for the sales
fetch, for any KPI pagination step, and for a KPI run whose first page is
such a response. -/
theorem c9_login_marker_amended :
    (∀ (page : SalesPage) (ty : SalesType) (now : JstTime),
      page.statusOk = true → page.table = none →
      (page.hasLoginText = true ∨ page.hasRegisterText = true) →
      fetch_and_process_sales_data page ty now = none) ∧
    (∀ (pages : Nat → KpiPage) (n fuel : Nat) (acc : List (List String)),
      (pages n).statusOk = true → (pages n).table = none →
      (pages n).bodyHasLoginMarker = true →
      kpiPaginate pages n (fuel + 1) acc = (none, 1)) ∧
    (∀ pages : Nat → KpiPage,
      (pages 1).statusOk = true → (pages 1).table = none →
      (pages 1).bodyHasLoginMarker = true →
      fetch_and_process_kpi_data pages = none) := by
  refine ⟨?_, ?_, ?_⟩
  · intro page ty now hok htab hmk
    unfold fetch_and_process_sales_data
    rw [hok]
    rcases hmk with h | h <;> simp [htab, h]
  · intro pages n fuel acc hok htab hmk
    rw [kpiPaginate_noTable pages n fuel acc hok htab, if_pos hmk]
  · intro pages hok htab hmk
    unfold fetch_and_process_kpi_data KPI_MAX_PAGES
    have hstep : kpiPaginate pages 1 5 [] = (none, 1) := by
      show kpiPaginate pages 1 (4 + 1) [] = (none, 1)
      rw [kpiPaginate_noTable pages 1 4 [] hok htab, if_pos hmk]
    rw [hstep]

/-- Claim C9, witness: the amended theorem applied to a markered page with
no table. -/
theorem c9_login_marker_witness :
    fetch_and_process_sales_data pageAuthExpired SalesType.time_charge t0 = none :=
  c9_login_marker_amended.1 pageAuthExpired SalesType.time_charge t0 rfl rfl (Or.inl rfl)

/-- Claim C10: the session builder returns a session for every cookie string
— the forced locale cookie `i18n_redirected=ja` is inserted before the
emptiness check, so the error branch is unreachable; on the empty string the
session holds exactly that cookie. -/
theorem c10_session_always_some :
    (∀ s : String, ∃ c, create_authenticated_session s = some c ∧
      ("i18n_redirected", "ja") ∈ c) ∧
    create_authenticated_session "" = some [("i18n_redirected", "ja")] := by
  refine ⟨?_, by decide⟩
  intro s
  unfold create_authenticated_session
  refine ⟨dictInsert (parseCookiePairs s) "i18n_redirected" "ja", ?_,
    dictInsert_mem _ _ _⟩
  rw [if_neg]
  intro he
  exact dictInsert_ne_nil _ _ _ (List.isEmpty_iff.mp he)

end SRud
